import Mathlib

/-!
Verification of the adoption-lifecycle subsystem of the shelter platform.

The definitions below are a shallow embedding of the three mutating route
handlers of `src/backend/routes/adoptions.js` (POST `/`, PUT `/:id/status`,
DELETE `/:id`) and of the generic animal-update handler of
`src/backend/routes/animals.js` (PUT `/:id`).  Persistent state (the
`animals` and `adoption_applications` tables) is a record of lists of rows;
each handler is a pure function from a database state and request inputs to
an HTTP-outcome tag together with the post-state.  Timestamp columns
(`reviewed_date`, `updated_at`) and application detail columns
(housing, contacts, ...) are not referenced by any property considered here
and are omitted from the row types; every column that any property reads or
writes is modelled.
-/

namespace Ark

/-- The `status` enum of the `adoption_applications` table. -/
inductive Status
  | pending
  | approved
  | rejected
  | completed
deriving DecidableEq

/-- The role of the authenticated caller (`req.user.role`). -/
inductive Role
  | user
  | staff
  | admin
deriving DecidableEq

/-- A row of the `animals` table (the columns the lifecycle touches). -/
structure Animal where
  id : Nat
  name : String
  is_available : Bool
deriving DecidableEq

/-- A row of the `adoption_applications` table (the columns the lifecycle
touches).  `admin_notes` and `reviewed_by` are nullable. -/
structure Application where
  id : Nat
  user_id : Nat
  animal_id : Nat
  status : Status
  admin_notes : Option String
  reviewed_by : Option Nat
deriving DecidableEq

/-- The persistent state: the two tables, plus the auto-increment counter
for `adoption_applications.id`. -/
structure DB where
  animals : List Animal
  applications : List Application
  nextApplicationId : Nat
deriving DecidableEq

/-- Embeds `getOne('SELECT ... FROM animals WHERE id = ?')`. -/
def getOneAnimal (db : DB) (id : Nat) : Option Animal :=
  db.animals.find? (fun a => a.id == id)

/-- Embeds `getOne('SELECT ... FROM adoption_applications WHERE id = ?')`. -/
def getOneApplication (db : DB) (id : Nat) : Option Application :=
  db.applications.find? (fun a => a.id == id)

/-- Modelled from the spec: the `requireStaff` middleware of
`src/backend/middleware/auth.js` is not part of the provided sources (only
its callers are).  The spec describes it as an external authorization
collaborator whose boolean staff-capability decision is an input to the
Coordinator; staff and admin hold the capability, plain users do not. -/
def requireStaffOk (role : Role) : Bool :=
  role == Role.staff || role == Role.admin

/-- Outcome tags of POST `/api/adoptions` (submit adoption application). -/
inductive CreateOutcome
  | created (id : Nat)
  | animalNotFound
  | animalNotAvailable
  | duplicatePending
deriving DecidableEq

/-- POST `/api/adoptions`: check the animal exists and is available, check
the caller has no *pending* application for this animal, then insert a new
application in status `pending`.  Early returns leave the state untouched
(the handler issues no write before them). -/
def createApplication (db : DB) (userId animalId : Nat) :
    CreateOutcome × DB :=
  match getOneAnimal db animalId with
  | none => (CreateOutcome.animalNotFound, db)
  | some animal =>
    if animal.is_available = false then
      (CreateOutcome.animalNotAvailable, db)
    else
      match db.applications.find? (fun a =>
          a.user_id == userId && a.animal_id == animalId &&
          a.status == Status.pending) with
      | some _ => (CreateOutcome.duplicatePending, db)
      | none =>
        let app : Application :=
          { id := db.nextApplicationId
            user_id := userId
            animal_id := animalId
            status := Status.pending
            admin_notes := none
            reviewed_by := none }
        (CreateOutcome.created app.id,
         { db with
             applications := db.applications ++ [app]
             nextApplicationId := db.nextApplicationId + 1 })

/-- Outcome tags of PUT `/api/adoptions/:id/status`.  The request-body
validator restricts `status` to the four enum values, which the `Status`
argument type captures; the handler itself has no further error paths
beyond authorization and the existence check. -/
inductive UpdateOutcome
  | ok
  | forbidden
  | notFound
deriving DecidableEq

/-- The first `UPDATE adoption_applications ... WHERE id = ?` statement of
the status handler: unconditionally write the requested status together
with `admin_notes` and `reviewed_by` on the addressed row. -/
def primaryUpdate (applicationId : Nat) (status : Status)
    (admin_notes : Option String) (reviewerId : Nat) (db : DB) : DB :=
  { db with
      applications := db.applications.map (fun a =>
        if a.id == applicationId then
          { a with
              status := status
              admin_notes := admin_notes
              reviewed_by := some reviewerId }
        else a) }

/-- The approval cascade of the status handler: the
`UPDATE animals SET is_available = FALSE WHERE id = ?` statement followed
by the `UPDATE adoption_applications SET status = 'rejected', ...
WHERE animal_id = ? AND id != ? AND status = 'pending'` statement. -/
def approvalCascade (animalId applicationId reviewerId : Nat) (db : DB) :
    DB :=
  { db with
      animals := db.animals.map (fun an =>
        if an.id == animalId then { an with is_available := false } else an)
      applications := db.applications.map (fun a =>
        if a.animal_id == animalId && a.id != applicationId &&
            a.status == Status.pending then
          { a with
              status := Status.rejected
              admin_notes := some "Animal was adopted by another applicant"
              reviewed_by := some reviewerId }
        else a) }

/-- The `UPDATE animals SET is_available = TRUE WHERE id = ?` statement of
the status handler. -/
def releaseAnimal (animalId : Nat) (db : DB) : DB :=
  { db with
      animals := db.animals.map (fun an =>
        if an.id == animalId then { an with is_available := true } else an) }

/-- PUT `/api/adoptions/:id/status`: load the application (404 if absent),
unconditionally apply `primaryUpdate`, then the two conditional cascades
exactly as the source does: if the new status is `approved` and the
previous one was not, run `approvalCascade` (mark the animal unavailable
and reject every other still-`pending` application on the same animal);
if the new status is `rejected` or `completed` and the previous one was
`approved`, run `releaseAnimal`.  The handler validates nothing about the
transition itself: any of the four statuses is written from any current
status. -/
def updateApplicationStatus (db : DB) (role : Role) (reviewerId : Nat)
    (applicationId : Nat) (status : Status) (admin_notes : Option String) :
    UpdateOutcome × DB :=
  if requireStaffOk role = false then
    (UpdateOutcome.forbidden, db)
  else
    match getOneApplication db applicationId with
    | none => (UpdateOutcome.notFound, db)
    | some application =>
      let db1 : DB := primaryUpdate applicationId status admin_notes
        reviewerId db
      let db2 : DB :=
        if status == Status.approved &&
            application.status != Status.approved then
          approvalCascade application.animal_id applicationId reviewerId db1
        else db1
      let db3 : DB :=
        if (status == Status.rejected || status == Status.completed) &&
            application.status == Status.approved then
          releaseAnimal application.animal_id db2
        else db2
      (UpdateOutcome.ok, db3)

/-- Outcome tags of DELETE `/api/adoptions/:id`. -/
inductive DeleteOutcome
  | ok
  | notFound
  | accessDenied
  | cannotDeleteNonPending
deriving DecidableEq

/-- DELETE `/api/adoptions/:id`: load the application (404 if absent);
a plain user may delete only their own application and only while it is
`pending`; staff and admin may delete any; the delete statement removes
the application row and touches nothing else. -/
def deleteApplication (db : DB) (role : Role) (actorId : Nat)
    (applicationId : Nat) : DeleteOutcome × DB :=
  match getOneApplication db applicationId with
  | none => (DeleteOutcome.notFound, db)
  | some application =>
    if role == Role.user && application.user_id != actorId then
      (DeleteOutcome.accessDenied, db)
    else if role == Role.user && application.status != Status.pending then
      (DeleteOutcome.cannotDeleteNonPending, db)
    else
      (DeleteOutcome.ok,
       { db with
           applications :=
             db.applications.filter (fun a => a.id != applicationId) })

/-- Request body of the generic animal update, restricted to the columns a
property here reads: every provided field is copied verbatim into the
`UPDATE animals SET ...` statement.  `name` stands for the remaining
optional descriptive columns, which the handler treats identically. -/
structure AnimalUpdateBody where
  name : Option String
  is_available : Option Bool
deriving DecidableEq

/-- Outcome tags of PUT `/api/animals/:id`. -/
inductive AnimalUpdateOutcome
  | ok
  | forbidden
  | noFields
  | notFound
deriving DecidableEq

/-- PUT `/api/animals/:id` (generic animal edit): staff-only; 400 when the
body provides no updatable field; 404 when the animal is absent; otherwise
overwrite exactly the provided fields.  The handler performs no check of
the adoption applications of the animal. -/
def updateAnimal (db : DB) (role : Role) (animalId : Nat)
    (bodyFields : AnimalUpdateBody) : AnimalUpdateOutcome × DB :=
  if requireStaffOk role = false then
    (AnimalUpdateOutcome.forbidden, db)
  else if bodyFields.name == none && bodyFields.is_available == none then
    (AnimalUpdateOutcome.noFields, db)
  else
    match getOneAnimal db animalId with
    | none => (AnimalUpdateOutcome.notFound, db)
    | some _ =>
      (AnimalUpdateOutcome.ok,
       { db with
           animals := db.animals.map (fun an =>
             if an.id == animalId then
               { an with
                   name := bodyFields.name.getD an.name
                   is_available :=
                     bodyFields.is_available.getD an.is_available }
             else an) })

/-- One public operation of the adoption subsystem, as invocable over the
REST API. -/
inductive Op
  | create (userId animalId : Nat)
  | setStatus (role : Role) (reviewerId applicationId : Nat)
      (status : Status) (admin_notes : Option String)
  | delete (role : Role) (actorId applicationId : Nat)

/-- The state reached after one operation (the HTTP outcome discarded). -/
def step (db : DB) (op : Op) : DB :=
  match op with
  | Op.create u a => (createApplication db u a).2
  | Op.setStatus r rid i s n => (updateApplicationStatus db r rid i s n).2
  | Op.delete r u i => (deleteApplication db r u i).2

/-- The state reached after a sequence of operations. -/
def run (db : DB) (ops : List Op) : DB :=
  ops.foldl step db

/-- Number of applications for a given animal currently in status
`approved`. -/
def approvedCount (db : DB) (animalId : Nat) : Nat :=
  (db.applications.filter (fun a =>
    a.animal_id == animalId && a.status == Status.approved)).length

/-- Whether some application for the animal is currently `approved`. -/
def hasApprovedApplication (db : DB) (animalId : Nat) : Bool :=
  db.applications.any (fun a =>
    a.animal_id == animalId && a.status == Status.approved)

/-- A concrete animal row for the executable scenarios below. -/
def animal7 : Animal := { id := 7, name := "Rex", is_available := true }

/-- A concrete initial state: one available animal, no applications yet,
the `adoption_applications` auto-increment counter at 42. -/
def initDB : DB :=
  { animals := [animal7], applications := [], nextApplicationId := 42 }

/-- User 1 and user 2 each file an application for animal 7 (they get ids
42 and 43). -/
def dbTwoPending : DB :=
  run initDB [Op.create 1 7, Op.create 2 7]

/-- User 1 files application 42 for animal 7 and staff member 9 approves
it. -/
def dbApproved42 : DB :=
  run initDB [Op.create 1 7, Op.setStatus Role.staff 9 42 Status.approved none]

/-- User 1 files application 42 for animal 7 and staff member 9 rejects
it. -/
def dbRejected42 : DB :=
  run initDB [Op.create 1 7, Op.setStatus Role.staff 9 42 Status.rejected none]

/-- Applications 42 and 43 are filed for animal 7, staff approves 42
(which auto-rejects 43), then staff sets 43 to `approved` as well: the
handler accepts the `rejected → approved` request. -/
def dbDoubleApproved : DB :=
  run initDB
    [Op.create 1 7, Op.create 2 7,
     Op.setStatus Role.staff 9 42 Status.approved none,
     Op.setStatus Role.staff 9 43 Status.approved none]

/-- Application 42 is approved and then moved back to `pending`: the
animal stays unavailable while 42 is pending again. -/
def dbPendingUnavailable : DB :=
  run initDB
    [Op.create 1 7,
     Op.setStatus Role.staff 9 42 Status.approved none,
     Op.setStatus Role.staff 9 42 Status.pending none]

/-- After the double approval of `dbDoubleApproved`, staff completes
application 43: the animal becomes available again while application 42
is still `approved`. -/
def dbApprovedButAvailable : DB :=
  run dbDoubleApproved [Op.setStatus Role.staff 9 43 Status.completed none]

/-- The row of application 42 as it stands in `dbTwoPending`. -/
def app42Pending : Application :=
  { id := 42, user_id := 1, animal_id := 7, status := Status.pending,
    admin_notes := none, reviewed_by := none }

/-- The row of application 42 as it stands in `dbApproved42`. -/
def app42Approved : Application :=
  { id := 42, user_id := 1, animal_id := 7, status := Status.approved,
    admin_notes := none, reviewed_by := some 9 }

/-- The row of application 42 as it stands in `dbRejected42`. -/
def app42Rejected : Application :=
  { id := 42, user_id := 1, animal_id := 7, status := Status.rejected,
    admin_notes := none, reviewed_by := some 9 }

/-- The row of animal 7 as it stands in `dbApproved42` (adopted, hence
unavailable). -/
def animal7Adopted : Animal :=
  { id := 7, name := "Rex", is_available := false }

end Ark


namespace Ark

/-- Mapping a function that does not change the predicate's verdict on
any element commutes with `find?`. -/
theorem find?_map_of_pred {α : Type} (l : List α) (p : α → Bool)
    (f : α → α) (hp : ∀ a, p (f a) = p a) :
    (l.map f).find? p = (l.find? p).map f := by
  induction l with
  | nil => rfl
  | cons a t ih =>
    by_cases h : p a = true
    · have hf : p (f a) = true := by rw [hp]; exact h
      rw [List.map_cons, List.find?_cons_of_pos _ hf,
        List.find?_cons_of_pos _ h]
      rfl
    · have hf : ¬ p (f a) = true := by rw [hp]; exact h
      rw [List.map_cons, List.find?_cons_of_neg _ hf,
        List.find?_cons_of_neg _ h, ih]

/-- The primary status update leaves the `animals` table untouched. -/
theorem primaryUpdate_animals (i : Nat) (s : Status) (notes : Option String)
    (rid : Nat) (db : DB) :
    (primaryUpdate i s notes rid db).animals = db.animals := rfl

/-- The availability-release statement leaves the applications table
untouched. -/
theorem releaseAnimal_applications (x : Nat) (db : DB) :
    (releaseAnimal x db).applications = db.applications := rfl

/-- Reading the addressed application back after the primary update. -/
theorem getOneApplication_primaryUpdate (db : DB) (i : Nat) (s : Status)
    (notes : Option String) (rid : Nat) (app : Application)
    (happ : getOneApplication db i = some app) :
    getOneApplication (primaryUpdate i s notes rid db) i =
      some { app with status := s, admin_notes := notes,
                      reviewed_by := some rid } := by
  have happ' : db.applications.find?
      (fun a : Application => a.id == i) = some app := happ
  have hpid : app.id = i := by simpa using List.find?_some happ'
  unfold getOneApplication primaryUpdate
  rw [find?_map_of_pred _ _ _ ?hp]
  case hp =>
    intro a
    split <;> rfl
  rw [happ']
  simp [hpid]

/-- Application lookups are unaffected by `releaseAnimal`. -/
theorem getOneApplication_releaseAnimal_frame (x : Nat) (d : DB) (i : Nat) :
    getOneApplication (releaseAnimal x d) i = getOneApplication d i := rfl

/-- The approval cascade never rewrites the approved application itself
(its `WHERE` clause contains `id != ?`). -/
theorem getOneApplication_approvalCascade (db : DB) (x i rid : Nat) :
    getOneApplication (approvalCascade x i rid db) i =
      getOneApplication db i := by
  unfold getOneApplication approvalCascade
  rw [find?_map_of_pred _ _ _ ?hp]
  case hp =>
    intro a
    split <;> rfl
  cases hfind : db.applications.find? (fun a : Application => a.id == i) with
  | none => rfl
  | some a =>
    have hpid : a.id = i := by simpa using List.find?_some hfind
    simp [hpid]

/-- Reading the animal back after the approval cascade. -/
theorem getOneAnimal_approvalCascade (db : DB) (x i rid : Nat) (an : Animal)
    (han : getOneAnimal db x = some an) :
    getOneAnimal (approvalCascade x i rid db) x =
      some { an with is_available := false } := by
  have han' : db.animals.find? (fun a : Animal => a.id == x) = some an := han
  have hpid : an.id = x := by simpa using List.find?_some han'
  unfold getOneAnimal approvalCascade
  rw [find?_map_of_pred _ _ _ ?hp]
  case hp =>
    intro a
    split <;> rfl
  rw [han']
  simp [hpid]

/-- Reading the animal back after the availability release. -/
theorem getOneAnimal_releaseAnimal (db : DB) (x : Nat) (an : Animal)
    (han : getOneAnimal db x = some an) :
    getOneAnimal (releaseAnimal x db) x =
      some { an with is_available := true } := by
  have han' : db.animals.find? (fun a : Animal => a.id == x) = some an := han
  have hpid : an.id = x := by simpa using List.find?_some han'
  unfold getOneAnimal releaseAnimal
  rw [find?_map_of_pred _ _ _ ?hp]
  case hp =>
    intro a
    split <;> rfl
  rw [han']
  simp [hpid]

end Ark

namespace Ark

/-- The status handler, once past authorization and the existence check,
always reports success and always writes the requested status (together
with notes and reviewer) on the addressed application, whatever the
current status is. -/
theorem updateStatus_target (db : DB) (role : Role) (rid i : Nat)
    (s : Status) (notes : Option String) (app : Application)
    (hrole : requireStaffOk role = true)
    (happ : getOneApplication db i = some app) :
    (updateApplicationStatus db role rid i s notes).1 = UpdateOutcome.ok ∧
    getOneApplication (updateApplicationStatus db role rid i s notes).2 i =
      some { app with status := s, admin_notes := notes,
                      reviewed_by := some rid } := by
  have hprim := getOneApplication_primaryUpdate db i s notes rid app happ
  unfold updateApplicationStatus
  simp only [hrole, Bool.true_eq_false, if_false, happ]
  by_cases hc1 : (s == Status.approved &&
      app.status != Status.approved) = true
  · by_cases hc2 : ((s == Status.rejected || s == Status.completed) &&
        app.status == Status.approved) = true
    · simp only [hc1, hc2, if_true]
      refine ⟨trivial, ?_⟩
      rw [getOneApplication_releaseAnimal_frame,
        getOneApplication_approvalCascade]
      exact hprim
    · simp only [hc1, hc2, if_true, if_false, Bool.false_eq_true]
      refine ⟨trivial, ?_⟩
      rw [getOneApplication_approvalCascade]
      exact hprim
  · by_cases hc2 : ((s == Status.rejected || s == Status.completed) &&
        app.status == Status.approved) = true
    · simp only [hc1, hc2, if_true, if_false, Bool.false_eq_true]
      refine ⟨trivial, ?_⟩
      rw [getOneApplication_releaseAnimal_frame]
      exact hprim
    · simp only [hc1, hc2, if_false, Bool.false_eq_true]
      exact ⟨trivial, hprim⟩

end Ark

namespace Ark

/-- Claim C8: every error outcome of the status-transition handler leaves
the state exactly as it was — the handler issues no write before its
early returns, so no application row and no animal row is partially
updated on a failure path. -/
theorem claim_C8_error_frame (db : DB) (role : Role) (rid i : Nat)
    (s : Status) (notes : Option String)
    (h : (updateApplicationStatus db role rid i s notes).1 ≠
      UpdateOutcome.ok) :
    (updateApplicationStatus db role rid i s notes).2 = db := by
  unfold updateApplicationStatus at h ⊢
  by_cases hr : requireStaffOk role = false
  · rw [if_pos hr]
  · rw [if_neg hr] at h ⊢
    cases happ : getOneApplication db i with
    | none => rfl
    | some app =>
      rw [happ] at h
      exact absurd rfl h

/-- Witness for C8 at a concrete error: a plain user is refused and the
state is untouched. -/
theorem claim_C8_error_frame_witness :
    (updateApplicationStatus initDB Role.user 1 42 Status.approved
      none).2 = initDB :=
  claim_C8_error_frame initDB Role.user 1 42 Status.approved none
    (by decide)

/-- Claim C5 counterexample: a transition request whose new status equals
the current status (application 42 is `pending`, the request asks for
`pending`) is answered with success, not with an invalid-transition
error, and it does rewrite the row (`admin_notes`/`reviewed_by`). -/
theorem claim_C5_counterexample :
    (getOneApplication dbTwoPending 42).map Application.status =
      some Status.pending ∧
    (updateApplicationStatus dbTwoPending Role.staff 9 42 Status.pending
      (some "second look")).1 = UpdateOutcome.ok ∧
    (updateApplicationStatus dbTwoPending Role.staff 9 42 Status.pending
      (some "second look")).2 ≠ dbTwoPending := by decide

/-- Claim C5 as amended: a transition request whose new status equals the
application's current status is silently accepted: the handler reports
success, the status stays what it was, the animals table is untouched,
and the row's `admin_notes`/`reviewed_by` are overwritten with the new
review data. -/
theorem claim_C5_amended (db : DB) (role : Role) (rid i : Nat)
    (notes : Option String) (app : Application)
    (hrole : requireStaffOk role = true)
    (happ : getOneApplication db i = some app) :
    (updateApplicationStatus db role rid i app.status notes).1 =
      UpdateOutcome.ok ∧
    (updateApplicationStatus db role rid i app.status notes).2.animals =
      db.animals ∧
    (updateApplicationStatus db role rid i app.status notes).2.applications =
      db.applications.map (fun a =>
        if a.id == i then
          { a with status := app.status, admin_notes := notes,
                   reviewed_by := some rid }
        else a) := by
  have hc1 : (app.status == Status.approved &&
      app.status != Status.approved) = false := by
    cases app.status <;> rfl
  have hc2 : ((app.status == Status.rejected ||
      app.status == Status.completed) &&
      app.status == Status.approved) = false := by
    cases app.status <;> rfl
  unfold updateApplicationStatus
  simp only [hrole, Bool.true_eq_false, if_false, happ, hc1, hc2,
    Bool.false_eq_true]
  refine ⟨trivial, rfl, rfl⟩

/-- Witness for the amended C5 at application 42 of `dbTwoPending`. -/
theorem claim_C5_amended_witness :
    (updateApplicationStatus dbTwoPending Role.staff 9 42
      app42Pending.status (some "second look")).1 = UpdateOutcome.ok ∧
    (updateApplicationStatus dbTwoPending Role.staff 9 42
      app42Pending.status (some "second look")).2.animals =
      dbTwoPending.animals ∧
    (updateApplicationStatus dbTwoPending Role.staff 9 42
      app42Pending.status (some "second look")).2.applications =
      dbTwoPending.applications.map (fun a =>
        if a.id == 42 then
          { a with status := app42Pending.status,
                   admin_notes := some "second look",
                   reviewed_by := some 9 }
        else a) :=
  claim_C5_amended dbTwoPending Role.staff 9 42 (some "second look")
    app42Pending (by decide) (by decide)

end Ark

namespace Ark

/-- Claim C6 counterexample: application 42 of `dbRejected42` is in the
terminal status `rejected`, yet a request to move it to `approved` is
answered with success and the status is indeed changed — nothing fails
with an invalid-transition error. -/
theorem claim_C6_counterexample :
    (getOneApplication dbRejected42 42).map Application.status =
      some Status.rejected ∧
    (updateApplicationStatus dbRejected42 Role.staff 9 42 Status.approved
      none).1 = UpdateOutcome.ok ∧
    (getOneApplication (updateApplicationStatus dbRejected42 Role.staff 9
      42 Status.approved none).2 42).map Application.status =
      some Status.approved := by decide

/-- Claim C6 as amended: a transition request into `pending`, and any
transition request on an application whose current status is `rejected`
or `completed`, is accepted: the handler reports success and writes the
requested status (with the review data) on the application — it performs
no transition validation and has no invalid-transition outcome at all. -/
theorem claim_C6_amended (db : DB) (role : Role) (rid i : Nat)
    (s : Status) (notes : Option String) (app : Application)
    (hrole : requireStaffOk role = true)
    (happ : getOneApplication db i = some app)
    (_hs : s = Status.pending ∨ app.status = Status.rejected ∨
      app.status = Status.completed) :
    (updateApplicationStatus db role rid i s notes).1 = UpdateOutcome.ok ∧
    getOneApplication (updateApplicationStatus db role rid i s notes).2 i =
      some { app with status := s, admin_notes := notes,
                      reviewed_by := some rid } :=
  updateStatus_target db role rid i s notes app hrole happ

/-- Witness for the amended C6: the `rejected → approved` request on
application 42 of `dbRejected42` goes through and rewrites the row. -/
theorem claim_C6_amended_witness :
    (updateApplicationStatus dbRejected42 Role.staff 9 42 Status.approved
      none).1 = UpdateOutcome.ok ∧
    getOneApplication (updateApplicationStatus dbRejected42 Role.staff 9
      42 Status.approved none).2 42 =
      some { app42Rejected with
               status := Status.approved
               admin_notes := none
               reviewed_by := some 9 } :=
  claim_C6_amended dbRejected42 Role.staff 9 42 Status.approved none
    app42Rejected (by decide) (by decide) (Or.inr (Or.inl (by decide)))

/-- Claim C10: the delete handler never touches the `animals` table on any
path, and on success it removes exactly the addressed application row.
In particular deleting an `approved` application leaves the animal's
`is_available` flag as it was (false), although the animal then has no
approved application any more. -/
theorem claim_C10_delete_frame (db : DB) (role : Role) (uid i : Nat)
    (app : Application)
    (happ : getOneApplication db i = some app) :
    (deleteApplication db role uid i).2.animals = db.animals ∧
    ((deleteApplication db role uid i).1 = DeleteOutcome.ok →
      (deleteApplication db role uid i).2.applications =
        db.applications.filter (fun a => a.id != i)) := by
  unfold deleteApplication
  rw [happ]
  by_cases h1 : (role == Role.user && app.user_id != uid) = true
  · simp [h1]
  · by_cases h2 : (role == Role.user && app.status != Status.pending) = true
    · simp [h1, h2]
    · simp [h1, h2]

/-- Witness for C10: an admin deletes the approved application 42 of
`dbApproved42`; the animals table (animal 7 unavailable) is untouched. -/
theorem claim_C10_delete_frame_witness :
    (deleteApplication dbApproved42 Role.admin 9 42).2.animals =
      dbApproved42.animals ∧
    ((deleteApplication dbApproved42 Role.admin 9 42).1 =
        DeleteOutcome.ok →
      (deleteApplication dbApproved42 Role.admin 9 42).2.applications =
        dbApproved42.applications.filter (fun a => a.id != 42)) :=
  claim_C10_delete_frame dbApproved42 Role.admin 9 42 app42Approved
    (by decide)

end Ark

namespace Ark

/-- Claim C3: approving a `pending` application reports success, sets the
application to `approved` with the review data, marks the animal
unavailable, and rewrites every *other* application of the same animal
that was `pending` to `rejected` with the fixed notes and the reviewer
id — every other row is untouched, as the result-table characterisation
states. -/
theorem claim_C3_approval_cascade (db : DB) (role : Role) (rid i : Nat)
    (notes : Option String) (app : Application) (an : Animal)
    (hrole : requireStaffOk role = true)
    (happ : getOneApplication db i = some app)
    (hpend : app.status = Status.pending)
    (han : getOneAnimal db app.animal_id = some an) :
    (updateApplicationStatus db role rid i Status.approved notes).1 =
      UpdateOutcome.ok ∧
    getOneApplication
        (updateApplicationStatus db role rid i Status.approved notes).2 i =
      some { app with status := Status.approved, admin_notes := notes,
                      reviewed_by := some rid } ∧
    getOneAnimal
        (updateApplicationStatus db role rid i Status.approved notes).2
        app.animal_id =
      some { an with is_available := false } ∧
    (updateApplicationStatus db role rid i Status.approved
        notes).2.applications =
      db.applications.map (fun a =>
        if a.id == i then
          { a with status := Status.approved, admin_notes := notes,
                   reviewed_by := some rid }
        else if a.animal_id == app.animal_id &&
            a.status == Status.pending then
          { a with status := Status.rejected,
                   admin_notes :=
                     some "Animal was adopted by another applicant",
                   reviewed_by := some rid }
        else a) := by
  have htgt := updateStatus_target db role rid i Status.approved notes app
    hrole happ
  have hc1 : (Status.approved == Status.approved &&
      app.status != Status.approved) = true := by
    rw [hpend]; rfl
  have hc2 : ((Status.approved == Status.rejected ||
      Status.approved == Status.completed) &&
      app.status == Status.approved) = false := rfl
  have hred : (updateApplicationStatus db role rid i Status.approved
      notes).2 =
      approvalCascade app.animal_id i rid
        (primaryUpdate i Status.approved notes rid db) := by
    unfold updateApplicationStatus
    simp only [hrole, Bool.true_eq_false, if_false, happ, hc1, hc2,
      Bool.false_eq_true, if_true]
  refine ⟨htgt.1, htgt.2, ?_, ?_⟩
  · rw [hred]
    exact getOneAnimal_approvalCascade _ _ _ _ an han
  · rw [hred]
    simp only [approvalCascade, primaryUpdate]
    rw [List.map_map]
    refine List.map_congr_left ?_
    intro a _
    by_cases hid : a.id = i
    · simp [Function.comp, hid]
    · simp [Function.comp, hid]

end Ark

namespace Ark

/-- Witness for C3: staff member 9 approves application 42 of
`dbTwoPending`; application 43 (pending, same animal) gets auto-rejected
and animal 7 becomes unavailable. -/
theorem claim_C3_approval_cascade_witness :
    (updateApplicationStatus dbTwoPending Role.staff 9 42 Status.approved
      (some "great fit")).1 = UpdateOutcome.ok ∧
    getOneApplication (updateApplicationStatus dbTwoPending Role.staff 9
        42 Status.approved (some "great fit")).2 42 =
      some { app42Pending with
               status := Status.approved
               admin_notes := some "great fit"
               reviewed_by := some 9 } ∧
    getOneAnimal (updateApplicationStatus dbTwoPending Role.staff 9 42
        Status.approved (some "great fit")).2 app42Pending.animal_id =
      some { animal7 with is_available := false } ∧
    (updateApplicationStatus dbTwoPending Role.staff 9 42 Status.approved
        (some "great fit")).2.applications =
      dbTwoPending.applications.map (fun a =>
        if a.id == 42 then
          { a with status := Status.approved,
                   admin_notes := some "great fit",
                   reviewed_by := some 9 }
        else if a.animal_id == app42Pending.animal_id &&
            a.status == Status.pending then
          { a with status := Status.rejected,
                   admin_notes :=
                     some "Animal was adopted by another applicant",
                   reviewed_by := some 9 }
        else a) :=
  claim_C3_approval_cascade dbTwoPending Role.staff 9 42
    (some "great fit") app42Pending animal7 (by decide) (by decide)
    (by decide) (by decide)

/-- Claim C4: a transition of an `approved` application to `rejected` or
to `completed` reports success and sets the referenced animal's
`is_available` flag back to true. -/
theorem claim_C4_release (db : DB) (role : Role) (rid i : Nat) (s : Status)
    (notes : Option String) (app : Application) (an : Animal)
    (hrole : requireStaffOk role = true)
    (happ : getOneApplication db i = some app)
    (happr : app.status = Status.approved)
    (hs : s = Status.rejected ∨ s = Status.completed)
    (han : getOneAnimal db app.animal_id = some an) :
    (updateApplicationStatus db role rid i s notes).1 = UpdateOutcome.ok ∧
    getOneAnimal (updateApplicationStatus db role rid i s notes).2
      app.animal_id = some { an with is_available := true } := by
  have hc1 : (s == Status.approved &&
      app.status != Status.approved) = false := by
    rcases hs with h | h <;> rw [h] <;> rfl
  have hc2 : ((s == Status.rejected || s == Status.completed) &&
      app.status == Status.approved) = true := by
    rcases hs with h | h <;> rw [h, happr] <;> rfl
  have hred : (updateApplicationStatus db role rid i s notes).2 =
      releaseAnimal app.animal_id (primaryUpdate i s notes rid db) := by
    unfold updateApplicationStatus
    simp only [hrole, Bool.true_eq_false, if_false, happ, hc1, hc2,
      Bool.false_eq_true, if_true]
  refine ⟨(updateStatus_target db role rid i s notes app hrole happ).1, ?_⟩
  rw [hred]
  exact getOneAnimal_releaseAnimal _ _ an han

/-- Witness for C4: staff member 9 completes the approved application 42
of `dbApproved42`; animal 7 becomes available again. -/
theorem claim_C4_release_witness :
    (updateApplicationStatus dbApproved42 Role.staff 9 42 Status.completed
      none).1 = UpdateOutcome.ok ∧
    getOneAnimal (updateApplicationStatus dbApproved42 Role.staff 9 42
        Status.completed none).2 app42Approved.animal_id =
      some { animal7Adopted with is_available := true } :=
  claim_C4_release dbApproved42 Role.staff 9 42 Status.completed none
    app42Approved animal7Adopted (by decide) (by decide) (by decide)
    (Or.inr rfl) (by decide)

end Ark

namespace Ark

/-- Claim C1, evaluated at the failing input: starting from `initDB`
(animal 7 available, no applications) the four public operations of
`dbDoubleApproved` — two creations, one approval, then an approval of the
auto-rejected sibling — leave animal 7 with TWO `approved` applications,
violating the at-most-one-approval invariant. -/
theorem claim_C1_code_eval :
    approvedCount dbDoubleApproved 7 = 2 := by decide

/-- Claim C2, evaluated at the failing input: in `dbPendingUnavailable`
application 42 is `pending` while animal 7 is unavailable; the
`pending → approved` request nevertheless reports success and approves
the application instead of failing with a conflict. -/
theorem claim_C2_code_eval :
    (getOneApplication dbPendingUnavailable 42).map Application.status =
      some Status.pending ∧
    (getOneAnimal dbPendingUnavailable 7).map Animal.is_available =
      some false ∧
    (updateApplicationStatus dbPendingUnavailable Role.staff 9 42
      Status.approved none).1 = UpdateOutcome.ok ∧
    (getOneApplication (updateApplicationStatus dbPendingUnavailable
        Role.staff 9 42 Status.approved none).2 42).map
      Application.status = some Status.approved := by decide

/-- Claim C7 counterexample: in the reachable state
`dbApprovedButAvailable`, user 1 holds the `approved` application 42 for
animal 7 and the animal is available; the claim says a new application by
user 1 for animal 7 must fail with a conflict, but the handler (which
only looks for a *pending* duplicate) accepts it and inserts row 44. -/
theorem claim_C7_counterexample :
    (getOneAnimal dbApprovedButAvailable 7).map Animal.is_available =
      some true ∧
    getOneApplication dbApprovedButAvailable 42 =
      some { app42Approved with
               admin_notes := none
               reviewed_by := some 9 } ∧
    (createApplication dbApprovedButAvailable 1 7).1 =
      CreateOutcome.created 44 ∧
    (createApplication dbApprovedButAvailable 1 7).2.applications.length =
      dbApprovedButAvailable.applications.length + 1 := by decide

/-- Claim C7 as amended: for an existing, available animal, creation
fails with the duplicate conflict exactly when a *pending* application by
the same user for the same animal exists (an `approved` application alone
does not block creation), and the failure inserts nothing. -/
theorem claim_C7_amended (db : DB) (uid animalId : Nat) (an : Animal)
    (han : getOneAnimal db animalId = some an)
    (hav : an.is_available = true) :
    ((createApplication db uid animalId).1 =
        CreateOutcome.duplicatePending ↔
      ∃ a ∈ db.applications, a.user_id = uid ∧ a.animal_id = animalId ∧
        a.status = Status.pending) ∧
    ((createApplication db uid animalId).1 =
        CreateOutcome.duplicatePending →
      (createApplication db uid animalId).2 = db) := by
  unfold createApplication
  simp only [han, hav, Bool.true_eq_false, if_false]
  cases hfind : db.applications.find? (fun a =>
      a.user_id == uid && a.animal_id == animalId &&
      a.status == Status.pending) with
  | none =>
    constructor
    · constructor
      · intro h
        cases h
      · rintro ⟨a, hmem, h1, h2, h3⟩
        have := List.find?_eq_none.mp hfind a hmem
        simp [h1, h2, h3] at this
    · intro h
      cases h
  | some a0 =>
    have hmem := List.mem_of_find?_eq_some hfind
    have hp := List.find?_some hfind
    simp only [Bool.and_eq_true, beq_iff_eq] at hp
    constructor
    · constructor
      · intro _
        exact ⟨a0, hmem, hp.1.1, hp.1.2, hp.2⟩
      · intro _
        rfl
    · intro _
      rfl

/-- Witness for the amended C7: in `dbTwoPending` user 1 already has the
pending application 42 for the available animal 7, so a second creation
attempt returns the duplicate conflict and changes nothing. -/
theorem claim_C7_amended_witness :
    ((createApplication dbTwoPending 1 7).1 =
        CreateOutcome.duplicatePending ↔
      ∃ a ∈ dbTwoPending.applications, a.user_id = 1 ∧ a.animal_id = 7 ∧
        a.status = Status.pending) ∧
    ((createApplication dbTwoPending 1 7).1 =
        CreateOutcome.duplicatePending →
      (createApplication dbTwoPending 1 7).2 = dbTwoPending) :=
  claim_C7_amended dbTwoPending 1 7 animal7 (by decide) (by decide)

end Ark

namespace Ark

/-- Claim C9 counterexample: in `dbApproved42` animal 7 has the approved
application 42 and is unavailable; the generic edit-animal update with
`is_available = true` nevertheless succeeds and flips the flag — the
handler performs no approved-application check. -/
theorem claim_C9_counterexample :
    hasApprovedApplication dbApproved42 7 = true ∧
    (getOneAnimal dbApproved42 7).map Animal.is_available = some false ∧
    (updateAnimal dbApproved42 Role.staff 7
      { name := none, is_available := some true }).1 =
      AnimalUpdateOutcome.ok ∧
    (getOneAnimal (updateAnimal dbApproved42 Role.staff 7
        { name := none, is_available := some true }).2 7).map
      Animal.is_available = some true := by decide

/-- Claim C9 as amended: whenever the request body provides
`is_available`, the generic edit-animal update writes it (together with
the other provided fields) unconditionally — the state of the animal's
adoption applications plays no role in the handler. -/
theorem claim_C9_amended (db : DB) (role : Role) (animalId : Nat)
    (b : Bool) (bodyFields : AnimalUpdateBody) (an : Animal)
    (hrole : requireStaffOk role = true)
    (han : getOneAnimal db animalId = some an)
    (hb : bodyFields.is_available = some b) :
    (updateAnimal db role animalId bodyFields).1 =
      AnimalUpdateOutcome.ok ∧
    getOneAnimal (updateAnimal db role animalId bodyFields).2 animalId =
      some { an with name := bodyFields.name.getD an.name,
                     is_available := b } := by
  have hcond : (bodyFields.name == none &&
      bodyFields.is_available == none) = false := by
    rw [hb]
    exact Bool.and_false _
  unfold updateAnimal
  simp only [hrole, Bool.true_eq_false, if_false, hcond,
    Bool.false_eq_true, han]
  have han' : db.animals.find? (fun a : Animal => a.id == animalId) =
      some an := han
  have hpid : an.id = animalId := by simpa using List.find?_some han'
  refine ⟨trivial, ?_⟩
  show (db.animals.map _).find? _ = _
  rw [find?_map_of_pred _ _ _ ?hp]
  case hp =>
    intro a
    split <;> rfl
  rw [han']
  simp [hpid, hb]

/-- Witness for the amended C9 on `dbApproved42`: the generic update sets
`is_available := true` on animal 7 although application 42 is approved. -/
theorem claim_C9_amended_witness :
    (updateAnimal dbApproved42 Role.staff 7
      { name := none, is_available := some true }).1 =
      AnimalUpdateOutcome.ok ∧
    getOneAnimal (updateAnimal dbApproved42 Role.staff 7
        { name := none, is_available := some true }).2 7 =
      some { animal7Adopted with
               name := (none : Option String).getD animal7Adopted.name
               is_available := true } :=
  claim_C9_amended dbApproved42 Role.staff 7 true
    { name := none, is_available := some true } animal7Adopted
    (by decide) (by decide) (by decide)

end Ark
